import Mathlib

/-!
Shallow embedding of the AllMoviesPro Telegram bot (src/bot.py) and proofs
about the claims of its specification.  Python strings are modelled either as
Lean String (a structure over List Char in this toolchain) or, where
character-level reasoning is needed, directly as List Char.  Stateful handler
code is modelled by explicit state passing (BotData for bot_data, a list of
chat effects for the replies/edits performed), HTTP responses are passed in as
arguments, and Python exceptions are modelled with Except.
-/

namespace AllMoviesPro

/-- Character-list model of a Python string. -/
abbrev Str := List Char

/-- Model of Python s.split(sep) for a one-character separator: splits at
every occurrence of the separator; the result is never the empty list. -/
def splitCh (sep : Char) : Str → List Str
  | [] => [[]]
  | c :: rest =>
    if c = sep then [] :: splitCh sep rest
    else (c :: (splitCh sep rest).headD []) :: (splitCh sep rest).tail

/-- Model of Python sep.join(parts) for a one-character separator. -/
def joinCh (sep : Char) : List Str → Str
  | [] => []
  | [s] => s
  | s :: t :: rest => s ++ sep :: joinCh sep (t :: rest)

/-- Is c an ASCII decimal digit. -/
def isDigitCh (c : Char) : Bool :=
  decide (48 ≤ c.toNat) && decide (c.toNat ≤ 57)

/-- The decimal digit character for d (any d of 9 or more renders as the
digit 9; the function is only used with d < 10). -/
def digitOf (d : Nat) : Char :=
  match d with
  | 0 => '0'
  | 1 => '1'
  | 2 => '2'
  | 3 => '3'
  | 4 => '4'
  | 5 => '5'
  | 6 => '6'
  | 7 => '7'
  | 8 => '8'
  | _ => '9'

/-- Decimal digits of n, most significant first: the model of Python str(n)
for a non-negative int, as f-string interpolation of tmdb_id performs it
(src/bot.py lines 221-224). -/
def natDigits (n : Nat) : Str :=
  if _h : n < 10 then [digitOf n]
  else natDigits (n / 10) ++ [digitOf (n % 10)]
decreasing_by
  exact Nat.div_lt_self (by omega) (by decide)

/-- Numeric value of a digit string, most significant first. -/
def parseDigits (l : Str) : Nat :=
  l.foldl (fun a c => a * 10 + (c.toNat - 48)) 0

/-- Model of Python int(s): succeeds exactly on a non-empty all-digit string
(the shape the callback id segments take) and raises ValueError otherwise
(src/bot.py lines 205, 344, 347, 353). -/
def pyIntChars (l : Str) : Except String Nat :=
  if !l.isEmpty && l.all isDigitCh then .ok (parseDigits l)
  else .error "invalid literal for int() with base 10"

/-! ## CallbackAction encoding and decoding (src/bot.py lines 198, 221-224
and 337-353), at the character level. -/

/-- The media kind carried in callback data: movie or series (tv). -/
inductive MediaKind
  | movie
  | tv
deriving DecidableEq

/-- The characters the media kind contributes to the callback string. -/
def MediaKind.chars : MediaKind → Str
  | .movie => "movie".toList
  | .tv => "tv".toList

/-- title.replace of the delimiter by a space, applied before encoding the
public-domain action (src/bot.py line 223). -/
def sanitizeTitle (t : Str) : Str :=
  t.map (fun c => if c = '|' then ' ' else c)

/-- Encoding of the public-domain action (src/bot.py line 223). -/
def encode_pd (k : MediaKind) (i : Nat) (t : Str) : Str :=
  "pd".toList ++ '|' :: (k.chars ++ '|' :: (natDigits i ++ '|' :: sanitizeTitle t))

/-- Encoding of the provider action (src/bot.py line 221). -/
def encode_prov (k : MediaKind) (i : Nat) : Str :=
  "prov".toList ++ '|' :: (k.chars ++ '|' :: natDigits i)

/-- Encoding of the trailer action (src/bot.py line 222). -/
def encode_trailer (k : MediaKind) (i : Nat) : Str :=
  "trailer".toList ++ '|' :: (k.chars ++ '|' :: natDigits i)

/-- Encoding of the recommendation action (src/bot.py line 224). -/
def encode_rec (k : MediaKind) (i : Nat) : Str :=
  "rec".toList ++ '|' :: (k.chars ++ '|' :: natDigits i)

/-- Decoding of the title of a public-domain action: split on the delimiter
and re-join every segment after the three-segment prefix
(src/bot.py line 349). -/
def decode_pd_title (data : Str) : Str :=
  joinCh '|' ((splitCh '|' data).drop 3)

/-- Decoding of the media kind and id of a provider, trailer or
recommendation action: unpack exactly three segments, then int() on the
third; none when the unpack or the conversion raises
(src/bot.py lines 343-344, 346-347, 352-353). -/
def decode_kind_id (data : Str) : Option (Str × Nat) :=
  match splitCh '|' data with
  | [_, m, i] =>
    match pyIntChars i with
    | .ok n => some (m, n)
    | .error _ => none
  | _ => none

/-! Lemmas about the character-level string functions. -/

theorem splitCh_ne_nil (sep : Char) (s : Str) : splitCh sep s ≠ [] := by
  cases s with
  | nil => simp [splitCh]
  | cons c rest =>
    simp only [splitCh]
    split <;> simp

theorem splitCh_of_not_mem (sep : Char) (a : Str) (h : sep ∉ a) :
    splitCh sep a = [a] := by
  induction a with
  | nil => rfl
  | cons c rest ih =>
    have hc : c ≠ sep := fun hc => h (hc ▸ List.mem_cons_self c rest)
    have hrest : sep ∉ rest := fun hm => h (List.mem_cons_of_mem c hm)
    simp [splitCh, hc, ih hrest]

theorem splitCh_append (sep : Char) (a b : Str) (h : sep ∉ a) :
    splitCh sep (a ++ sep :: b) = a :: splitCh sep b := by
  induction a with
  | nil => simp [splitCh]
  | cons c rest ih =>
    have hc : c ≠ sep := fun hc => h (hc ▸ List.mem_cons_self c rest)
    have hrest : sep ∉ rest := fun hm => h (List.mem_cons_of_mem c hm)
    simp [splitCh, hc, ih hrest]

theorem joinCh_splitCh (sep : Char) (s : Str) : joinCh sep (splitCh sep s) = s := by
  induction s with
  | nil => rfl
  | cons c rest ih =>
    cases hsp : splitCh sep rest with
    | nil => exact absurd hsp (splitCh_ne_nil sep rest)
    | cons hh tt =>
      rw [hsp] at ih
      by_cases hc : c = sep
      · subst hc
        cases tt with
        | nil => simp [splitCh, hsp, joinCh] at ih ⊢; exact ih
        | cons t1 t2 => simp [splitCh, hsp, joinCh] at ih ⊢; exact ih
      · cases tt with
        | nil => simp [splitCh, hc, hsp, joinCh] at ih ⊢; exact ih
        | cons t1 t2 => simp [splitCh, hc, hsp, joinCh] at ih ⊢; exact ih

theorem isDigitCh_digitOf (d : Nat) : isDigitCh (digitOf d) = true := by
  match d with
  | 0 | 1 | 2 | 3 | 4 | 5 | 6 | 7 | 8 => decide
  | _ + 9 => rfl

theorem toNat_digitOf (d : Nat) (h : d < 10) : (digitOf d).toNat = 48 + d := by
  interval_cases d <;> decide

theorem natDigits_ne_nil (n : Nat) : natDigits n ≠ [] := by
  rw [natDigits]
  split <;> simp

theorem natDigits_all_digits (n : Nat) : (natDigits n).all isDigitCh = true := by
  induction n using Nat.strong_induction_on with
  | _ n ih =>
    rw [natDigits]
    split
    · simp [isDigitCh_digitOf]
    · rename_i h
      have hlt : n / 10 < n := Nat.div_lt_self (by omega) (by decide)
      have := ih (n / 10) hlt
      simp only [List.all_append, this, Bool.true_and, List.all_cons, List.all_nil,
        Bool.and_true]
      exact isDigitCh_digitOf (n % 10)

theorem parseDigits_append (l : Str) (c : Char) :
    parseDigits (l ++ [c]) = parseDigits l * 10 + (c.toNat - 48) := by
  simp [parseDigits, List.foldl_append]

theorem parseDigits_natDigits (n : Nat) : parseDigits (natDigits n) = n := by
  induction n using Nat.strong_induction_on with
  | _ n ih =>
    rw [natDigits]
    split
    · rename_i h
      simp [parseDigits, toNat_digitOf n h]
    · rename_i h
      have hlt : n / 10 < n := Nat.div_lt_self (by omega) (by decide)
      rw [parseDigits_append, ih (n / 10) hlt, toNat_digitOf (n % 10) (Nat.mod_lt n (by omega))]
      omega

theorem pyIntChars_natDigits (n : Nat) : pyIntChars (natDigits n) = .ok n := by
  unfold pyIntChars
  rw [if_pos, parseDigits_natDigits]
  rw [Bool.and_eq_true, natDigits_all_digits]
  refine ⟨?_, rfl⟩
  simp [List.isEmpty_iff, natDigits_ne_nil]

theorem pipe_not_mem_of_all_digits (l : Str) (h : l.all isDigitCh = true) :
    ('|' : Char) ∉ l := by
  intro hm
  rw [List.all_eq_true] at h
  exact absurd (h _ hm) (by decide)

theorem pipe_not_mem_natDigits (n : Nat) : ('|' : Char) ∉ natDigits n :=
  pipe_not_mem_of_all_digits _ (natDigits_all_digits n)

theorem pipe_not_mem_sanitizeTitle (t : Str) : ('|' : Char) ∉ sanitizeTitle t := by
  intro hm
  rw [sanitizeTitle, List.mem_map] at hm
  obtain ⟨a, _, ha⟩ := hm
  by_cases h : a = '|' <;> simp [h] at ha

theorem pipe_not_mem_chars (k : MediaKind) : ('|' : Char) ∉ k.chars := by
  cases k <;> decide

/-- C2: CallbackAction encode/decode round-trips: for every media kind,
numeric id and title, encoding the public-domain action (delimiter characters
in the title replaced by a space before joining) and then decoding it by
splitting on the delimiter and re-joining all segments after the fixed
three-segment prefix yields exactly the delimiter-sanitized title; and for
every provider, trailer or recommendation action, encoding then decoding
reproduces the media kind and numeric id exactly. -/
theorem c2_callback_roundtrip (k : MediaKind) (i : Nat) (t : Str) :
    decode_pd_title (encode_pd k i t) = sanitizeTitle t ∧
    decode_kind_id (encode_prov k i) = some (k.chars, i) ∧
    decode_kind_id (encode_trailer k i) = some (k.chars, i) ∧
    decode_kind_id (encode_rec k i) = some (k.chars, i) := by
  have hsplit3 : ∀ pre : Str, ('|' : Char) ∉ pre →
      splitCh '|' (pre ++ '|' :: (k.chars ++ '|' :: natDigits i)) =
        [pre, k.chars, natDigits i] := by
    intro pre hpre
    rw [splitCh_append '|' pre _ hpre,
      splitCh_append '|' k.chars _ (pipe_not_mem_chars k),
      splitCh_of_not_mem '|' _ (pipe_not_mem_natDigits i)]
  refine ⟨?_, ?_, ?_, ?_⟩
  · unfold decode_pd_title encode_pd
    rw [splitCh_append '|' _ _ (by decide),
      splitCh_append '|' k.chars _ (pipe_not_mem_chars k),
      splitCh_append '|' _ _ (pipe_not_mem_natDigits i)]
    simp [joinCh_splitCh]
  · unfold decode_kind_id encode_prov
    rw [hsplit3 _ (by decide)]
    simp [pyIntChars_natDigits]
  · unfold decode_kind_id encode_trailer
    rw [hsplit3 _ (by decide)]
    simp [pyIntChars_natDigits]
  · unfold decode_kind_id encode_rec
    rw [hsplit3 _ (by decide)]
    simp [pyIntChars_natDigits]

/-! ## String-level models of the Python built-ins the handlers use. -/

/-- Python truthiness of an optional string: None and the empty string are
falsy. -/
def pyTruthy (o : Option String) : Bool :=
  match o with
  | some s => !(s == "")
  | none => false

/-- Python a or b on optional strings. -/
def pyOrOpt (a b : Option String) : Option String :=
  if pyTruthy a then a else b

/-- Python a or dflt where the result is known to be a string. -/
def pyOrStr (a : Option String) (dflt : String) : String :=
  if pyTruthy a then a.getD "" else dflt

/-- Python str(x) for an optional string (f-string interpolation renders
None as the four characters None). -/
def pyStrO (o : Option String) : String := o.getD "None"

/-- Python s[:n]. -/
def pyTake (n : Nat) (s : String) : String := String.mk (s.toList.take n)

/-- Python str.strip() whitespace test. -/
def isSpaceCh (c : Char) : Bool :=
  c == ' ' || (decide (9 ≤ c.toNat) && decide (c.toNat ≤ 13))

/-- Python s.strip(). -/
def pyStrip (s : String) : String :=
  String.mk (((s.toList.dropWhile isSpaceCh).reverse.dropWhile isSpaceCh).reverse)

/-- Python sep.join(parts). -/
def pyJoinStr (sep : String) : List String → String
  | [] => ""
  | [s] => s
  | s :: t :: rest => s ++ sep ++ pyJoinStr sep (t :: rest)

/-- Python s.split(sep) for a one-character separator, on Lean strings. -/
def pySplitStr (sep : Char) (s : String) : List String :=
  (splitCh sep s.toList).map String.mk

/-- html.escape with quote enabled, as used on all interpolated text. -/
def pyEscape (s : String) : String :=
  String.join (s.toList.map (fun c =>
    if c = '&' then "&amp;"
    else if c = '<' then "&lt;"
    else if c = '>' then "&gt;"
    else if c.toNat = 34 then "&quot;"
    else if c.toNat = 39 then "&#x27;"
    else String.mk [c]))

/-- Python int(s) on Lean strings. -/
def pyIntStr (s : String) : Except String Nat := pyIntChars s.toList

/-- ASCII lowering of one character (the model of str.lower() on the ASCII
file names the archive filter sees). -/
def lowerChar (c : Char) : Char :=
  if 65 ≤ c.toNat ∧ c.toNat ≤ 90 then Char.ofNat (c.toNat + 32) else c

/-- Python s.lower(). -/
def pyLower (s : String) : String := String.mk (s.toList.map lowerChar)

/-- Python suffix test s.endswith(suffix). -/
def pyEndsWith (suffix s : String) : Bool := suffix.toList.isSuffixOf s.toList

/-! ## TMDB adapters (src/bot.py lines 58-124).  The HTTP round-trip is
passed in as an argument (an Except value: error is a raised transport
exception); the definitions embed the response reshaping. -/

/-- One entry of a TMDB search/similar response, with the fields the
reshaping reads; an absent JSON key is none. -/
structure MultiItem where
  media_type : Option String := none
  id : Option Nat := none
  title : Option String := none
  name : Option String := none
  release_date : Option String := none
  first_air_date : Option String := none
  poster_path : Option String := none
deriving DecidableEq

/-- A reduced result row as tmdb_search and tmdb_similar build it. -/
structure SearchResult where
  id : Option Nat
  media_type : String
  title : Option String
  year : String
  poster : Option String
deriving DecidableEq

/-- The reshaping tmdb_search performs on the results array of the
search/multi response (src/bot.py lines 61-74): first 10 entries, entries
whose media_type is neither movie nor tv skipped, the rest reduced. -/
def tmdb_search_items (items : List MultiItem) : List SearchResult :=
  (items.take 10).filterMap (fun item =>
    match item.media_type with
    | some m =>
      if m = "movie" ∨ m = "tv" then
        some { id := item.id
               media_type := m
               title := pyOrOpt item.title item.name
               year := pyTake 4 (pyOrStr (pyOrOpt item.release_date item.first_air_date) "")
               poster := item.poster_path }
      else none
    | none => none)

/-- tmdb_search (src/bot.py lines 58-74): the HTTP call outcome mapped
through the reshaping. -/
def tmdb_search (resp : Except String (List MultiItem)) :
    Except String (List SearchResult) :=
  resp.map tmdb_search_items

/-- The reshaping tmdb_similar performs (src/bot.py lines 97-107): first 10
entries, each stamped with the media_type argument of the call. -/
def tmdb_similar_items (media_type : String) (items : List MultiItem) :
    List SearchResult :=
  (items.take 10).map (fun item =>
    { id := item.id
      media_type := media_type
      title := pyOrOpt item.title item.name
      year := pyTake 4 (pyOrStr (pyOrOpt item.release_date item.first_air_date) "")
      poster := item.poster_path })

/-- One entry of the videos response (src/bot.py lines 88-91); vtype models
the JSON key named type. -/
structure Video where
  site : Option String := none
  vtype : Option String := none
  key : Option String := none
deriving DecidableEq

/-- The test of src/bot.py line 89: hosted on YouTube and of type Trailer or
Teaser. -/
def videoPred (v : Video) : Bool :=
  v.site == some "YouTube" && (v.vtype == some "Trailer" || v.vtype == some "Teaser")

/-- The scan of tmdb_videos over the results list (src/bot.py lines 88-92):
the watch URL built from the first matching entry, none when no entry
matches. -/
def tmdb_videos_scan : List Video → Option String
  | [] => none
  | v :: rest =>
    if videoPred v then some ("https://www.youtube.com/watch?v=" ++ pyStrO v.key)
    else tmdb_videos_scan rest

/-- C5: for every metadata-search response, the search adapter returns at
most 10 items and every returned item has media kind movie or series (tv);
items of any other kind present in the response are dropped. -/
theorem c5_search_kind_filter (items : List MultiItem) :
    (tmdb_search_items items).length ≤ 10 ∧
    ∀ r ∈ tmdb_search_items items, r.media_type = "movie" ∨ r.media_type = "tv" := by
  constructor
  · calc (tmdb_search_items items).length ≤ (items.take 10).length :=
          List.length_filterMap_le _ _
      _ ≤ 10 := by rw [List.length_take]; exact Nat.min_le_left _ _
  · intro r hr
    rw [tmdb_search_items, List.mem_filterMap] at hr
    obtain ⟨item, _, heq⟩ := hr
    cases hm : item.media_type with
    | none => rw [hm] at heq; simp at heq
    | some m =>
      rw [hm] at heq
      dsimp only at heq
      by_cases hmt : m = "movie" ∨ m = "tv"
      · rw [if_pos hmt] at heq
        simp only [Option.some.injEq] at heq
        subst heq
        exact hmt
      · rw [if_neg hmt] at heq; simp at heq

/-- C10: every item returned by the similar-titles adapter called with media
kind k (at most 10 of them) has its media_kind field set to k, regardless of
any per-item type information in the response. -/
theorem c10_similar_stamps_kind (k : String) (items : List MultiItem) :
    (tmdb_similar_items k items).length ≤ 10 ∧
    ∀ r ∈ tmdb_similar_items k items, r.media_type = k := by
  constructor
  · rw [tmdb_similar_items, List.length_map, List.length_take]
    exact Nat.min_le_left _ _
  · intro r hr
    rw [tmdb_similar_items, List.mem_map] at hr
    obtain ⟨item, _, heq⟩ := hr
    subst heq
    rfl

/-- C8: the trailer adapter returns the constructed watch URL of the first
entry (in response order) whose hosting site is the expected video platform
and whose type is Trailer or Teaser, and returns the not-found signal when
no such entry exists; no preference ordering among multiple qualifying
trailers is applied. -/
theorem c8_trailer_first_match (l : List Video) :
    tmdb_videos_scan l =
      (l.find? videoPred).map
        (fun v => "https://www.youtube.com/watch?v=" ++ pyStrO v.key) ∧
    (tmdb_videos_scan l = none ↔ ∀ v ∈ l, videoPred v = false) := by
  have h1 : ∀ m : List Video, tmdb_videos_scan m =
      (m.find? videoPred).map
        (fun v => "https://www.youtube.com/watch?v=" ++ pyStrO v.key) := by
    intro m
    induction m with
    | nil => rfl
    | cons v rest ih =>
      by_cases hv : videoPred v
      · simp [tmdb_videos_scan, List.find?, hv]
      · simp [tmdb_videos_scan, List.find?, hv, ih]
  refine ⟨h1 l, ?_⟩
  rw [h1 l, Option.map_eq_none', List.find?_eq_none]
  simp

/-! ## Internet Archive public-domain adapter (src/bot.py lines 126-155). -/

/-- The known video file extension set (src/bot.py line 129). -/
def VIDEO_EXTS : List String := ["mp4", "m4v", "webm", "ogv"]

/-- name.split at every dot, last segment, lowered: the extension test input
of src/bot.py line 147. -/
def extOf (nm : String) : String :=
  pyLower (String.mk ((splitCh '.' nm.toList).getLastD []))

/-- The file filter of src/bot.py line 148: extension in the known video set
and the name does not end in .thumbs. -/
def keepFile (nm : String) : Bool :=
  VIDEO_EXTS.contains (extOf nm) && !(pyEndsWith ".thumbs" nm)

/-- The download link built for a surviving file (src/bot.py line 149). -/
def fileLink (ident nm : String) : String :=
  "https://archive.org/download/" ++ ident ++ "/" ++ nm

/-- One entry of the files array of a metadata response; name is the only
key read (absent yields the empty-string default of f.get). -/
structure IAFile where
  name : Option String := none
deriving DecidableEq

/-- One doc of the advancedsearch response, with the four requested
fields. -/
structure IADoc where
  identifier : Option String := none
  title : Option String := none
  year : Option String := none
  licenseurl : Option String := none
deriving DecidableEq

/-- One item of the adapter result (src/bot.py lines 151-154). -/
structure IAItem where
  identifier : Option String
  title : Option String
  year : Option String
  licenseurl : Option String
  links : List String
deriving DecidableEq

/-- The file loop of src/bot.py lines 144-149: f.get of the name with the
empty-string default, keep the file when the filter passes, and build its
download link. -/
def ia_item_links (ident : String) (files : List IAFile) : List String :=
  files.filterMap (fun f =>
    if keepFile (f.name.getD "") then some (fileLink ident (f.name.getD ""))
    else none)

/-- The metadata URL of a doc (src/bot.py lines 128 and 142). -/
def metaUrl (ident : Option String) : String :=
  "https://archive.org/metadata/" ++ pyStrO ident

/-- The advancedsearch query string (src/bot.py line 132). -/
def iaQuery (title : String) : String :=
  "title:(\"" ++ title ++ "\") AND mediatype:(movies OR video) AND licenseurl:*"

/-- The per-doc loop of ia_search_public_domain (src/bot.py lines 140-154):
each doc's metadata is fetched (an HTTP call that may raise, propagating out
of the adapter), its files filtered, the doc dropped when zero links
survive, otherwise kept with its links capped at 5. -/
def ia_collect (meta : String → Except String (List IAFile)) :
    List IADoc → Except String (List IAItem)
  | [] => .ok []
  | d :: rest =>
    match meta (metaUrl d.identifier) with
    | .error e => .error e
    | .ok files =>
      match ia_collect meta rest with
      | .error e => .error e
      | .ok tail =>
        .ok (if (ia_item_links (pyStrO d.identifier) files).isEmpty then tail
             else { identifier := d.identifier
                    title := d.title
                    year := d.year
                    licenseurl := d.licenseurl
                    links := (ia_item_links (pyStrO d.identifier) files).take 5 } :: tail)

/-- ia_search_public_domain (src/bot.py lines 131-155): the search call
followed by the per-doc metadata fan-out. -/
def ia_search_public_domain (searchResp : String → Except String (List IADoc))
    (meta : String → Except String (List IAFile)) (title : String) :
    Except String (List IAItem) :=
  match searchResp (iaQuery title) with
  | .error e => .error e
  | .ok docs => ia_collect meta docs

theorem ia_item_links_mem (ident : String) (files : List IAFile) :
    ∀ link ∈ ia_item_links ident files, ∃ nm, link = fileLink ident nm ∧
      VIDEO_EXTS.contains (extOf nm) = true := by
  intro link hl
  rw [ia_item_links, List.mem_filterMap] at hl
  obtain ⟨f, _, heq⟩ := hl
  by_cases hk : keepFile (f.name.getD "")
  · rw [if_pos hk] at heq
    simp only [Option.some.injEq] at heq
    refine ⟨f.name.getD "", heq.symm, ?_⟩
    rw [keepFile, Bool.and_eq_true] at hk
    exact hk.1
  · rw [if_neg hk] at heq
    simp at heq

/-- C4: for every title query and pair of archive responses, the
public-domain adapter returns only items with at least one file link, every
returned link is a download link of a file whose extension is in the known
video-file set, each item carries at most 5 links, and items whose metadata
yields zero surviving links are dropped. -/
theorem c4_ia_links (meta : String → Except String (List IAFile))
    (docs : List IADoc) (items : List IAItem)
    (hok : ia_collect meta docs = .ok items) :
    ∀ it ∈ items, it.links ≠ [] ∧ it.links.length ≤ 5 ∧
      ∀ link ∈ it.links, ∃ ident nm, link = fileLink ident nm ∧
        VIDEO_EXTS.contains (extOf nm) = true := by
  induction docs generalizing items with
  | nil =>
    simp only [ia_collect] at hok
    cases hok
    intro it hit
    simp at hit
  | cons d rest ih =>
    rw [ia_collect] at hok
    cases hm : meta (metaUrl d.identifier) with
    | error e => simp [hm] at hok
    | ok files =>
      simp only [hm] at hok
      cases hrest : ia_collect meta rest with
      | error e => simp [hrest] at hok
      | ok tail =>
        simp only [hrest, Except.ok.injEq] at hok
        by_cases hempty : (ia_item_links (pyStrO d.identifier) files).isEmpty
        · rw [if_pos hempty] at hok
          subst hok
          exact ih tail hrest
        · rw [if_neg hempty] at hok
          subst hok
          intro it hit
          rcases List.mem_cons.mp hit with hhd | htl
          · subst hhd
            have hne : ia_item_links (pyStrO d.identifier) files ≠ [] := by
              intro hnil
              rw [hnil] at hempty
              exact hempty rfl
            refine ⟨?_, ?_, ?_⟩
            · show (ia_item_links (pyStrO d.identifier) files).take 5 ≠ []
              cases hcase : ia_item_links (pyStrO d.identifier) files with
              | nil => exact absurd hcase hne
              | cons a as => simp
            · show ((ia_item_links (pyStrO d.identifier) files).take 5).length ≤ 5
              rw [List.length_take]
              exact Nat.min_le_left _ _
            · intro link hlink
              have hmem : link ∈ ia_item_links (pyStrO d.identifier) files :=
                List.mem_of_mem_take hlink
              obtain ⟨nm, hnm, hext⟩ :=
                ia_item_links_mem (pyStrO d.identifier) files link hmem
              exact ⟨pyStrO d.identifier, nm, hnm, hext⟩
          · exact ih tail hrest it htl

def iaMetaW : String → Except String (List IAFile) :=
  fun _ => .ok [{ name := some "movie.mp4" }]

def iaDocsW : List IADoc :=
  [{ identifier := some "id1", title := some "T", year := some "1960",
     licenseurl := some "L" }]

def iaItemW : IAItem :=
  { identifier := some "id1", title := some "T", year := some "1960",
    licenseurl := some "L", links := [fileLink "id1" "movie.mp4"] }

theorem c4_ia_links_witness :
    iaItemW.links ≠ [] ∧ iaItemW.links.length ≤ 5 ∧
    ∀ link ∈ iaItemW.links, ∃ ident nm, link = fileLink ident nm ∧
      VIDEO_EXTS.contains (extOf nm) = true :=
  c4_ia_links iaMetaW iaDocsW [iaItemW] (by rfl) iaItemW (by simp)

/-! ## Chat effects and bot state. -/

/-- The replies, edits and sends a handler performs on the chat, in
order. -/
inductive Eff where
  | replyChatAction
  | replyText (text : String)
  | replyMarkup (text : String) (buttons : List (String × String))
  | replyPhoto (photo : String) (caption : String) (buttons : List (String × String))
  | editMessageText (text : String)
  | editMarkup (text : String) (buttons : List (String × String))
  | answerCallback
  | sendMessage (chat : Int) (text : String)
deriving DecidableEq

/-- Model of a Python set of chat ids: a duplicate-free list in insertion
order; adding a member again is a no-op (set.add semantics). -/
def setAdd (s : List Int) (x : Int) : List Int :=
  if x ∈ s then s else s ++ [x]

/-- context.bot_data: the only key the bot uses is recent_chats; an absent
key is the empty list, which is what both the .get default and setdefault
produce. -/
structure BotData where
  recent_chats : List Int
deriving DecidableEq

/-- The fields the pick handler reads from the details payload
(src/bot.py lines 213-216). -/
structure DetailsRec where
  title : Option String := none
  name : Option String := none
  release_date : Option String := none
  first_air_date : Option String := none
  overview : Option String := none
  poster_path : Option String := none
deriving DecidableEq

/-- One entry of a watch-provider offer list (src/bot.py line 245). -/
structure ProvEntry where
  provider_name : Option String := none
deriving DecidableEq

/-- The per-region provider object; an absent offer kind is none (prov.get
returning None). -/
structure ProvRegion where
  flatrate : Option (List ProvEntry) := none
  rent : Option (List ProvEntry) := none
  buy : Option (List ProvEntry) := none
deriving DecidableEq

/-- The empty provider object (the .get default of src/bot.py line 83). -/
def emptyProvRegion : ProvRegion := {}

/-- The environment of a dispatch: the configuration read from env vars and
the outcome of each outbound HTTP GET, keyed the way bot.py builds the
request; an Except.error is a raised transport exception. -/
structure Env where
  apiKey : String
  region : String
  admins : List Int
  searchResp : String → Except String (List MultiItem)
  detailsResp : String → Nat → Except String DetailsRec
  providersResp : String → Nat → Except String (List (String × ProvRegion))
  videosResp : String → Nat → Except String (List Video)
  similarResp : String → Nat → Except String (List MultiItem)
  iaSearchResp : String → Except String (List IADoc)
  iaMetaResp : String → Except String (List IAFile)

/-- tmdb_providers (src/bot.py lines 80-83): the results mapping of the
response looked up at the configured region, an absent region yielding the
empty object. -/
def tmdb_providers_call (env : Env) (media_type : String) (i : Nat) :
    Except String ProvRegion :=
  (env.providersResp media_type i).map
    (fun results => (results.lookup env.region).getD emptyProvRegion)

/-- tmdb_videos (src/bot.py lines 85-92): the videos call outcome mapped
through the first-match scan. -/
def tmdb_videos_call (env : Env) (media_type : String) (i : Nat) :
    Except String (Option String) :=
  (env.videosResp media_type i).map tmdb_videos_scan

/-- tmdb_similar (src/bot.py lines 94-107). -/
def tmdb_similar_call (env : Env) (media_type : String) (i : Nat) :
    Except String (List SearchResult) :=
  (env.similarResp media_type i).map (tmdb_similar_items media_type)

/-- ia_search_public_domain against the environment's responses. -/
def ia_search_call (env : Env) (title : String) : Except String (List IAItem) :=
  ia_search_public_domain env.iaSearchResp env.iaMetaResp title

/-! ## Command handlers (src/bot.py lines 157-332). -/

/-- SPLASH.format(brand, tag, region) (src/bot.py lines 158-169 and
173-174): the literal splash text with the three fields substituted. -/
def splashFormatted (brand tag region : String) : String :=
  "<b>" ++ brand ++ "</b>\n<i>" ++ tag ++
    "</i>\n\nYeh bot aapko movies/series ki <b>legal</b> information deta hai:\n• Search + details + poster\n• " ++
    region ++
    " me kaha stream ho rahi hai (legal providers)\n• Public-domain/CC licensed videos ke legal download links (Internet Archive)\n• Similar recommendations\n• Aaj ke trending (TMDB)\n\nUse: /search <movie ya series ka naam>\nTry: /trending"

/-- The /start handler (src/bot.py lines 171-176): a typing action and the
formatted splash with brand and tagline escaped; bot_data is never read or
written here. -/
def start (brand tag region : String) (bd : BotData) : BotData × List Eff :=
  (bd, [Eff.replyChatAction,
        Eff.replyText (splashFormatted (pyEscape brand) (pyEscape tag) region)])

/-- str(x) for an optional id (f-string interpolation renders an absent id
as None). -/
def pyNatO (o : Option Nat) : String :=
  match o with
  | some n => Nat.repr n
  | none => "None"

/-- title.replace of the delimiter by a space on Lean strings
(src/bot.py line 223). -/
def pyReplacePipe (s : String) : String := String.mk (sanitizeTitle s.toList)

/-- One picker button label (src/bot.py line 197): Title (Year) when the
year is truthy, the raw title otherwise — where a title of None makes the
[:60] slice raise — truncated to 60 characters. -/
def pickLabel (r : SearchResult) : Except String String :=
  if r.year = "" then
    match r.title with
    | some t => .ok (pyTake 60 t)
    | none => .error "NoneType object is not subscriptable"
  else .ok (pyTake 60 (pyStrO r.title ++ " (" ++ r.year ++ ")"))

/-- The picker keyboard loop (src/bot.py lines 195-199), one single-button
row per result with the pick callback data. -/
def buildKeyboard : List SearchResult → Except String (List (String × String))
  | [] => .ok []
  | r :: rest =>
    match pickLabel r with
    | .error e => .error e
    | .ok label =>
      match buildKeyboard rest with
      | .error e => .error e
      | .ok bs => .ok ((label, "pick|" ++ r.media_type ++ "|" ++ pyNatO r.id) :: bs)

/-- The /search handler (src/bot.py lines 181-200).  context.args is the
argument list the command dispatch collected — none models the attribute
still unset, where " ".join(context.args) raises TypeError.  The search
response for a query is passed in. -/
def search_cmd (args : Option (List String)) (apiKey : String)
    (searchResp : String → Except String (List MultiItem)) :
    List Eff × Except String Unit :=
  match args with
  | none => ([], .error "can only join an iterable (not NoneType)")
  | some argList =>
    let query := pyStrip (pyJoinStr " " argList)
    if query = "" then
      ([Eff.replyText "Please type: /search <movie/series name>"], .ok ())
    else if apiKey = "" then
      ([Eff.replyText "TMDB_API_KEY missing. Set env var and restart bot."], .ok ())
    else
      match tmdb_search (searchResp query) with
      | .error e =>
        ([Eff.replyChatAction, Eff.replyText ("TMDB error: " ++ e)], .ok ())
      | .ok results =>
        if results.isEmpty then
          ([Eff.replyChatAction, Eff.replyText "Koi result nahi mila."], .ok ())
        else
          match buildKeyboard results with
          | .error e => ([Eff.replyChatAction], .error e)
          | .ok buttons =>
            ([Eff.replyChatAction, Eff.replyMarkup "Select one:" buttons], .ok ())

/-- The free-text fallback handler (src/bot.py lines 326-332): record the
chat id into recent_chats, strip the text, return on empty, rewrite
update.message.text to /search plus the text and call search_cmd.  The
rewrite touches only the message object: context.args — which the message
dispatch that entered this handler never populated — stays none, and is what
search_cmd reads. -/
def on_text_fallback (bd : BotData) (effectiveChat : Option Int)
    (msgText : Option String) (args : Option (List String)) (apiKey : String)
    (searchResp : String → Except String (List MultiItem)) :
    BotData × List Eff × Except String Unit :=
  let bd1 : BotData :=
    match effectiveChat with
    | some cid => { recent_chats := setAdd bd.recent_chats cid }
    | none => bd
  let q := pyStrip (pyOrStr msgText "")
  if q = "" then (bd1, [], .ok ())
  else
    let r := search_cmd args apiKey searchResp
    (bd1, r.1, r.2)

/-- is_admin (src/bot.py lines 302-303). -/
def is_admin (admins : List Int) (uid : Int) : Bool := admins.contains uid

/-- The send loop of /broadcast (src/bot.py lines 313-319): sends in set
order, a raise from one send swallowed, each success counted. -/
def broadcast_send (send : Int → Except String Unit) (msg : String) :
    List Int → Nat × List Eff
  | [] => (0, [])
  | c :: rest =>
    match send c with
    | .ok _ =>
      ((broadcast_send send msg rest).1 + 1,
       Eff.sendMessage c msg :: (broadcast_send send msg rest).2)
    | .error _ => broadcast_send send msg rest

/-- The /broadcast handler (src/bot.py lines 305-320). -/
def cmd_broadcast (admins : List Int) (user : Option Int) (args : List String)
    (bd : BotData) (send : Int → Except String Unit) :
    BotData × List Eff × Except String Unit :=
  match user with
  | none => (bd, [Eff.replyText "Not authorized."], .ok ())
  | some uid =>
    if !(is_admin admins uid) then (bd, [Eff.replyText "Not authorized."], .ok ())
    else
      let msg := pyStrip (pyJoinStr " " args)
      if msg = "" then (bd, [Eff.replyText "Usage: /broadcast <message>"], .ok ())
      else
        let r := broadcast_send send msg bd.recent_chats
        (bd,
         r.2 ++ [Eff.replyText ("Broadcast sent to ~" ++ Nat.repr r.1 ++ " chats.")],
         .ok ())

/-! ## Button-press handlers and the callback router
(src/bot.py lines 202-288 and 334-357).  The transport operations (answer,
edit, reply) are modelled as succeeding effects; Python exceptions inside a
handler are the Except.error component of its result. -/

/-- The four action buttons of a detail message (src/bot.py lines 220-225);
the title was already forced to a string by the text construction. -/
def detailButtons (media_type : String) (i : Nat) (title : String) :
    List (String × String) :=
  [("Where to Watch (IN)", "prov|" ++ media_type ++ "|" ++ Nat.repr i),
   ("Trailer", "trailer|" ++ media_type ++ "|" ++ Nat.repr i),
   ("Public-Domain Downloads",
    "pd|" ++ media_type ++ "|" ++ Nat.repr i ++ "|" ++ pyReplacePipe title),
   ("Recommendations", "rec|" ++ media_type ++ "|" ++ Nat.repr i)]

/-- The pick handler (src/bot.py lines 202-234): acknowledge, decode the
selection (its own try renders a bad payload as Invalid selection.), fetch
the details (its own try renders a transport error), build the text — where
escaping a title absent under both keys raises, and that raise escapes to
the router — and reply with a photo when a poster is present or edit the
message otherwise. -/
def on_pick (env : Env) (data : String) : List Eff × Except String Unit :=
  match pySplitStr '|' data with
  | [_, media_type, id_str] =>
    match pyIntStr id_str with
    | .error _ => ([Eff.answerCallback, Eff.editMessageText "Invalid selection."], .ok ())
    | .ok i =>
      match env.detailsResp media_type i with
      | .error e =>
        ([Eff.answerCallback, Eff.editMessageText ("TMDB error: " ++ e)], .ok ())
      | .ok d =>
        match pyOrOpt d.title d.name with
        | none => ([Eff.answerCallback], .error "NoneType object has no attribute replace")
        | some t =>
          let text := "<b>" ++ pyEscape t ++ "</b> (" ++
            pyEscape (pyTake 4 (pyOrStr (pyOrOpt d.release_date d.first_air_date) "")) ++
            ")\n\n" ++ pyEscape (pyOrStr d.overview "No overview available.")
          let buttons := detailButtons media_type i t
          if pyTruthy d.poster_path then
            ([Eff.answerCallback,
              Eff.replyPhoto ("https://image.tmdb.org/t/p/w500" ++ d.poster_path.getD "")
                text buttons],
             .ok ())
          else
            ([Eff.answerCallback, Eff.editMarkup text buttons], .ok ())
  | _ => ([Eff.answerCallback, Eff.editMessageText "Invalid selection."], .ok ())

/-- Insertion of a string into a sorted list (code-point order, the order
Python sorted uses on strings). -/
def insertSorted (x : String) : List String → List String
  | [] => [x]
  | y :: ys => if x ≤ y then x :: y :: ys else y :: insertSorted x ys

/-- Model of Python sorted on a list of strings. -/
def sortStrings (l : List String) : List String := l.foldr insertSorted []

/-- Provider names of one offer kind (src/bot.py lines 243-246): the truthy
names, deduplicated and sorted, or an em dash when the name list is
empty. -/
def provNames (entries : Option (List ProvEntry)) : String :=
  let names := (entries.getD []).filterMap (fun p =>
    if pyTruthy p.provider_name then p.provider_name else none)
  if names.isEmpty then "—"
  else pyJoinStr ", " (sortStrings names.eraseDups)

/-- The providers button handler (src/bot.py lines 236-251). -/
def on_providers (env : Env) (media_type : String) (i : Nat) :
    List Eff × Except String Unit :=
  match tmdb_providers_call env media_type i with
  | .error e => ([Eff.editMessageText ("Providers error: " ++ e)], .ok ())
  | .ok prov =>
    ([Eff.editMessageText
        ("<b>Where to Watch (" ++ env.region ++ ")</b>\n" ++
         "Streaming: " ++ pyEscape (provNames prov.flatrate) ++ "\n" ++
         "Rent: " ++ pyEscape (provNames prov.rent) ++ "\n" ++
         "Buy: " ++ pyEscape (provNames prov.buy) ++ "\n" ++
         "\nNote: Availability can change. Check in your apps.")],
     .ok ())

/-- The trailer button handler (src/bot.py lines 253-258): the videos call
is not guarded here, so its transport error escapes to the router. -/
def on_trailer (env : Env) (media_type : String) (i : Nat) :
    List Eff × Except String Unit :=
  match tmdb_videos_call env media_type i with
  | .error e => ([], .error e)
  | .ok (some url) => ([Eff.editMessageText ("Trailer: " ++ url)], .ok ())
  | .ok none => ([Eff.editMessageText "Trailer not found."], .ok ())

/-- One archive digest chunk (src/bot.py lines 269-273). -/
def pdChunk (it : IAItem) : String :=
  "<b>" ++ pyEscape (pyOrStr it.title "Untitled") ++ "</b> (" ++
    pyEscape (pyOrStr it.year "") ++ ")\nLicense: " ++
    pyEscape (pyOrStr it.licenseurl "") ++ "\n" ++ pyJoinStr "\n" it.links

/-- The archive digest (src/bot.py line 274). -/
def pdDigest (items : List IAItem) : String :=
  pyJoinStr "\n\n" (items.map pdChunk) ++
    "\n\nOnly share/use content permitted by the license."

/-- The public-domain button handler (src/bot.py lines 260-275). -/
def on_public_domain (env : Env) (title : String) : List Eff × Except String Unit :=
  let searching := Eff.editMessageText "Searching Internet Archive (public-domain/CC) …"
  match ia_search_call env title with
  | .error e => ([searching, Eff.editMessageText ("IA error: " ++ e)], .ok ())
  | .ok items =>
    if items.isEmpty then
      ([searching,
        Eff.editMessageText "No public-domain/CC results found for this title."], .ok ())
    else ([searching, Eff.editMessageText (pdDigest items)], .ok ())

/-- One similar-titles line (src/bot.py lines 285-287): when the year is
falsy the raw title is escaped and an absent title raises, escaping to the
router. -/
def recLine (s : SearchResult) : Except String String :=
  if s.year = "" then
    match s.title with
    | some t => .ok ("• " ++ pyEscape t)
    | none => .error "NoneType object has no attribute replace"
  else .ok ("• " ++ pyEscape (pyStrO s.title ++ " (" ++ s.year ++ ")"))

/-- The line loop of the recommendations handler (src/bot.py lines
284-287). -/
def recLines : List SearchResult → Except String (List String)
  | [] => .ok []
  | s :: rest =>
    match recLine s with
    | .error e => .error e
    | .ok line =>
      match recLines rest with
      | .error e => .error e
      | .ok ls => .ok (line :: ls)

/-- The recommendations button handler (src/bot.py lines 277-288). -/
def on_recommend (env : Env) (media_type : String) (i : Nat) :
    List Eff × Except String Unit :=
  match tmdb_similar_call env media_type i with
  | .error e => ([Eff.editMessageText ("Recommendation error: " ++ e)], .ok ())
  | .ok sims =>
    if sims.isEmpty then ([Eff.editMessageText "No similar titles found."], .ok ())
    else
      match recLines (sims.take 10) with
      | .error e => ([], .error e)
      | .ok ls =>
        ([Eff.editMessageText (pyJoinStr "\n" ("<b>Similar titles:</b>" :: ls))], .ok ())

/-- The body of the callback router (src/bot.py lines 337-355): everything
inside the try.  A tuple unpack of other than three segments and a
non-numeric id segment raise ValueError right here. -/
def callback_router_body (env : Env) (data : String) : List Eff × Except String Unit :=
  if (pySplitStr '|' data).headD "" = "pick" then on_pick env data
  else if (pySplitStr '|' data).headD "" = "prov" then
    match pySplitStr '|' data with
    | [_, media_type, id_str] =>
      match pyIntStr id_str with
      | .error e => ([], .error e)
      | .ok i => on_providers env media_type i
    | _ => ([], .error "not enough values to unpack (expected 3)")
  else if (pySplitStr '|' data).headD "" = "trailer" then
    match pySplitStr '|' data with
    | [_, media_type, id_str] =>
      match pyIntStr id_str with
      | .error e => ([], .error e)
      | .ok i => on_trailer env media_type i
    | _ => ([], .error "not enough values to unpack (expected 3)")
  else if (pySplitStr '|' data).headD "" = "pd" then
    on_public_domain env (pyJoinStr "|" ((pySplitStr '|' data).drop 3))
  else if (pySplitStr '|' data).headD "" = "rec" then
    match pySplitStr '|' data with
    | [_, media_type, id_str] =>
      match pyIntStr id_str with
      | .error e => ([], .error e)
      | .ok i => on_recommend env media_type i
    | _ => ([], .error "not enough values to unpack (expected 3)")
  else ([Eff.answerCallback], .ok ())

/-- The callback dispatcher (src/bot.py lines 334-357): nothing happens on a
missing or empty callback payload; otherwise the body runs, and an exception
it raises is caught and rendered in place as an error edit on the same
message, after whatever effects the body had already performed. -/
def callback_router (env : Env) (data : Option String) : List Eff :=
  match data with
  | none => []
  | some s =>
    if s = "" then []
    else
      match callback_router_body env s with
      | (effs, .ok _) => effs
      | (effs, .error e) => effs ++ [Eff.editMessageText ("Error: " ++ e)]

/-! ## Theorems about the dispatcher and the admin handlers. -/

theorem setAdd_mem_self (s : List Int) (x : Int) : x ∈ setAdd s x := by
  unfold setAdd
  split
  · assumption
  · simp

theorem setAdd_idem (s : List Int) (x : Int) : setAdd (setAdd s x) x = setAdd s x := by
  unfold setAdd
  rw [if_pos]
  split
  · assumption
  · simp

theorem on_text_fallback_fst (bd : BotData) (cid : Int) (t : Option String)
    (args : Option (List String)) (key : String)
    (resp : String → Except String (List MultiItem)) :
    (on_text_fallback bd (some cid) t args key resp).1 =
      { recent_chats := setAdd bd.recent_chats cid } := by
  unfold on_text_fallback
  dsimp only
  split <;> rfl

/-- C1 counterexample: handling a /start event from chat 42 with an empty
KnownChatSet leaves the set empty, so the originating chat identifier is not
a member of the set after the handler completes. -/
theorem c1_start_does_not_record :
    (start "AllMoviesPro" "Powered by Empire Movies" "IN"
        { recent_chats := [] }).1.recent_chats = [] ∧
    ¬ ((42 : Int) ∈ (start "AllMoviesPro" "Powered by Empire Movies" "IN"
        { recent_chats := [] }).1.recent_chats) := by
  constructor
  · rfl
  · intro h
    simp [start] at h

/-- C1 (amended): only the free-text fallback handler records the
originating chat identifier into KnownChatSet, and the add is idempotent —
handling the same chat a second time leaves the set exactly as the first
handling left it; the /start command handler leaves KnownChatSet unchanged
(and the callback router never touches bot_data at all). -/
theorem c1_only_fallback_records (bd : BotData) (cid : Int) (t1 t2 : Option String)
    (args : Option (List String)) (key : String)
    (resp : String → Except String (List MultiItem)) (brand tag region : String) :
    cid ∈ (on_text_fallback bd (some cid) t1 args key resp).1.recent_chats ∧
    (on_text_fallback (on_text_fallback bd (some cid) t1 args key resp).1
        (some cid) t2 args key resp).1 =
      (on_text_fallback bd (some cid) t1 args key resp).1 ∧
    (start brand tag region bd).1 = bd := by
  refine ⟨?_, ?_, rfl⟩
  · rw [on_text_fallback_fst]
    exact setAdd_mem_self bd.recent_chats cid
  · rw [on_text_fallback_fst, on_text_fallback_fst]
    exact congrArg BotData.mk (setAdd_idem bd.recent_chats cid)

/-- The search response used by the C3 evaluation: one movie match for the
query Chaplin. -/
def respW : String → Except String (List MultiItem) :=
  fun q =>
    if q = "Chaplin" then
      .ok [{ media_type := some "movie", id := some 603,
             title := some "Modern Times", release_date := some "1936-02-25" }]
    else .ok []

/-- C3: the free-text fallback does NOT reproduce the /search reply for the
same text.  The fallback rewrites update.message.text and re-enters
search_cmd, but search_cmd builds its query from context.args, which the
rewrite never populates (a message-handler dispatch leaves it none): on the
free-text message Chaplin the fallback records the chat and then raises an
uncaught TypeError with no reply, while search_cmd invoked with that text as
its argument list replies with the one-button picker. -/
theorem c3_fallback_diverges_from_search :
    on_text_fallback { recent_chats := [] } (some 7) (some "Chaplin") none "key" respW =
      ({ recent_chats := [7] }, [],
       .error "can only join an iterable (not NoneType)") ∧
    search_cmd (some ["Chaplin"]) "key" respW =
      ([Eff.replyChatAction,
        Eff.replyMarkup "Select one:" [("Modern Times (1936)", "pick|movie|603")]],
       .ok ()) := by
  constructor
  · rfl
  · rfl

theorem broadcast_send_fst (send : Int → Except String Unit) (msg : String) :
    ∀ chats : List Int,
      (broadcast_send send msg chats).1 =
        (chats.filter (fun c => (send c).isOk)).length := by
  intro chats
  induction chats with
  | nil => rfl
  | cons c rest ih =>
    cases hc : send c with
    | ok u => simp [broadcast_send, hc, List.filter, Except.isOk, Except.toBool, ih]
    | error e => simp [broadcast_send, hc, List.filter, Except.isOk, Except.toBool, ih]

theorem filter_length_add (p : Int → Bool) :
    ∀ l : List Int,
      (l.filter p).length + (l.filter (fun c => !(p c))).length = l.length := by
  intro l
  induction l with
  | nil => rfl
  | cons c rest ih =>
    cases hc : p c <;> simp [List.filter, hc, ← ih] <;> omega

/-- C6: for every set of chat identifiers in KnownChatSet and every send
function that fails for a known subset of them, the authorized broadcast
handler completes without an exception and reports a sent-count equal to the
set size minus the size of the failing subset. -/
theorem c6_broadcast_count (admins : List Int) (uid : Int) (args : List String)
    (bd : BotData) (send : Int → Except String Unit)
    (hadm : is_admin admins uid = true)
    (hmsg : pyStrip (pyJoinStr " " args) ≠ "") :
    ∃ effs : List Eff,
      cmd_broadcast admins (some uid) args bd send =
        (bd,
         effs ++ [Eff.replyText ("Broadcast sent to ~" ++
           Nat.repr (bd.recent_chats.length -
             (bd.recent_chats.filter (fun c => !(send c).isOk)).length) ++
           " chats.")],
         .ok ()) := by
  refine ⟨(broadcast_send send (pyStrip (pyJoinStr " " args)) bd.recent_chats).2, ?_⟩
  have hcount : (broadcast_send send (pyStrip (pyJoinStr " " args)) bd.recent_chats).1 =
      bd.recent_chats.length -
        (bd.recent_chats.filter (fun c => !(send c).isOk)).length := by
    rw [broadcast_send_fst]
    have := filter_length_add (fun c => (send c).isOk) bd.recent_chats
    omega
  simp [cmd_broadcast, hadm, hmsg, hcount]

/-- The send function of the broadcast evaluations: chat 20 is unreachable,
every other chat succeeds. -/
def sendW : Int → Except String Unit :=
  fun c => if c = 20 then .error "blocked" else .ok ()

theorem c6_broadcast_count_witness :
    ∃ effs : List Eff,
      cmd_broadcast [1] (some 1) ["hi"] { recent_chats := [10, 20] } sendW =
        ({ recent_chats := [10, 20] },
         effs ++ [Eff.replyText ("Broadcast sent to ~" ++
           Nat.repr (([10, 20] : List Int).length -
             (([10, 20] : List Int).filter (fun c => !(sendW c).isOk)).length) ++
           " chats.")],
         .ok ()) :=
  c6_broadcast_count [1] 1 ["hi"] { recent_chats := [10, 20] } sendW
    (by decide) (by decide)

/-- C7: for every user identifier not in the admin allow-list, the broadcast
handler replies exactly the fixed rejection text, performs no broadcast
send, and leaves KnownChatSet untouched. -/
theorem c7_non_admin_rejected (admins : List Int) (uid : Int) (args : List String)
    (bd : BotData) (send : Int → Except String Unit)
    (h : is_admin admins uid = false) :
    cmd_broadcast admins (some uid) args bd send =
      (bd, [Eff.replyText "Not authorized."], .ok ()) ∧
    ∀ c m, Eff.sendMessage c m ∉ (cmd_broadcast admins (some uid) args bd send).2.1 := by
  have heq : cmd_broadcast admins (some uid) args bd send =
      (bd, [Eff.replyText "Not authorized."], .ok ()) := by
    simp [cmd_broadcast, h]
  refine ⟨heq, ?_⟩
  intro c m
  rw [heq]
  simp

theorem c7_non_admin_rejected_witness :
    cmd_broadcast [1] (some 99) ["x"] { recent_chats := [5] } sendW =
      ({ recent_chats := [5] }, [Eff.replyText "Not authorized."], .ok ()) ∧
    ∀ c m, Eff.sendMessage c m ∉
      (cmd_broadcast [1] (some 99) ["x"] { recent_chats := [5] } sendW).2.1 :=
  c7_non_admin_rejected [1] 99 ["x"] { recent_chats := [5] } sendW (by decide)

/-- C9: for every button-press event with a non-empty payload, an
unrecognized decoded tag makes the dispatcher acknowledge the press and
leave the message content unchanged; and whenever the guarded body raises an
exception, the dispatcher catches it and appends an in-place error edit of
the same message after the effects already performed — the exception never
propagates out of event handling. -/
theorem c9_router_catches (env : Env) (data : String) :
    (data ≠ "" →
      (pySplitStr '|' data).headD "" ∉ ["pick", "prov", "trailer", "pd", "rec"] →
      callback_router env (some data) = [Eff.answerCallback]) ∧
    (∀ effs e, data ≠ "" →
      callback_router_body env data = (effs, .error e) →
      callback_router env (some data) = effs ++ [Eff.editMessageText ("Error: " ++ e)]) := by
  constructor
  · intro hne hmem
    simp only [List.mem_cons, not_or] at hmem
    obtain ⟨h1, h2, h3, h4, h5, _⟩ := hmem
    have hbody : callback_router_body env data = ([Eff.answerCallback], .ok ()) := by
      unfold callback_router_body
      rw [if_neg h1, if_neg h2, if_neg h3, if_neg h4, if_neg h5]
    simp [callback_router, hne, hbody]
  · intro effs e hne hbody
    simp [callback_router, hne, hbody]

/-- A concrete environment for the router evaluation: every outbound call
succeeds with an empty payload. -/
def envW : Env :=
  { apiKey := "k", region := "IN", admins := [1],
    searchResp := fun _ => .ok [],
    detailsResp := fun _ _ => .ok {},
    providersResp := fun _ _ => .ok [],
    videosResp := fun _ _ => .ok [],
    similarResp := fun _ _ => .ok [],
    iaSearchResp := fun _ => .ok [],
    iaMetaResp := fun _ => .ok [] }

theorem c9_router_catches_witness :
    callback_router envW (some "zzz|x") = [Eff.answerCallback] :=
  (c9_router_catches envW "zzz|x").1 (by decide) (by decide)

end AllMoviesPro
